import Mathlib

/-
Verification of the Error Learning and Regression-Test Synthesis Engine
(`workflows/error-learning.js`): a shallow embedding of its data model and
operations, followed by theorems settling the specification's claims.

Machine-level conventions of the embedding:
* JavaScript strings are Lean `String`s (all inputs of interest are ASCII).
* JavaScript regular expressions are embedded by a small backtracking
  matcher (`RE`, `jsMatch`) covering exactly the constructs the source
  uses: literals, `\w`, `.`, greedy `+`/`*` over single-character classes,
  alternation of literals, and numbered capture groups.  `String.match`
  returns the leftmost match, greedy-first, as in JavaScript.
* `Date.now()` / `Math.random()` / `new Date().toISOString()` are
  nondeterministic in the source; the embedding takes the generated id and
  the current timestamp as explicit parameters (`newId`, `now`).
* File-system operations are made explicit: each export function takes the
  existing file text (the empty string when the file does not exist, as in
  the source's `existsSync` fallback) and returns the final file text.
-/

namespace ErrorLearning

/-- JavaScript `\w` character class: `[A-Za-z0-9_]`. -/
def isWordChar (c : Char) : Bool := c.isAlphanum || c == '_'

/-- JavaScript `.` (no `s` flag): any character except a line terminator. -/
def isDotChar (c : Char) : Bool := c != '\n' && c != '\r'

/-- Splits a character list at every non-word character, keeping the
(word-character) runs in between; mirrors `split(/\W+/)` up to empty
tokens, which the caller immediately discards by the length filter. -/
def splitWordRuns : List Char → List Char → List (List Char)
  | [], cur => [cur]
  | c :: rest, cur =>
    if isWordChar c then splitWordRuns rest (cur ++ [c])
    else cur :: splitWordRuns rest []

/-- `errorMessage.toLowerCase().split(/\W+/).filter(w => w.length > 3)`
from `findSimilarErrors`. -/
def jsWords (s : String) : List String :=
  ((splitWordRuns (s.toList.map Char.toLower) []).map
    (fun l => String.mk l)).filter (fun w => 3 < w.length)

/-- JavaScript `haystack.includes(needle)`: substring occurrence test. -/
def jsIncludesList : List Char → List Char → Bool
  | s, sub =>
    match s with
    | [] => sub.isEmpty
    | _ :: rest => sub.isPrefixOf s || jsIncludesList rest sub

/-- `String.prototype.includes` on Lean strings. -/
def jsIncludes (s sub : String) : Bool :=
  jsIncludesList s.toList sub.toList

/-- `detectPattern`'s result object:
`{ type: pattern.extract, match: match[0], captures: match.slice(1),
   testType: categoryConfig.testType }`
(`match` is a Lean keyword, so the field is called `matchStr`). -/
structure DetectedPattern where
  type : String
  matchStr : String
  captures : List String
  testType : String
deriving DecidableEq, Repr

/-- A failure record as built by `reportError` (fields absent in the
JavaScript object are `none`). -/
structure ErrorRecord where
  id : String
  message : String
  category : String
  context : List (String × String)
  reportedAt : String
  status : String
  testGenerated : Bool
  detectedPattern : Option DetectedPattern
  similarErrors : Option (List String)
deriving DecidableEq, Repr

/-- An entry of `registry.generatedTests`. -/
structure GeneratedTest where
  errorId : String
  testName : String
  testCode : String
  testType : String
  generatedAt : String
deriving DecidableEq, Repr

/-- An entry of `registry.patterns` (`generateESLintCheck`). -/
structure PatternEntry where
  errorId : String
  type : String
  rule : String
  generatedAt : String
deriving DecidableEq, Repr

/-- The per-project registry aggregate (`loadRegistry`'s shape). -/
structure Registry where
  projectName : String
  version : String
  createdAt : String
  errors : List ErrorRecord
  generatedTests : List GeneratedTest
  patterns : List PatternEntry
  updatedAt : Option String
deriving DecidableEq, Repr

/-- `saveRegistry`: bumps `updatedAt` (the file write itself is the
persisted form of the returned value). -/
def saveRegistry (now : String) (registry : Registry) : Registry :=
  { registry with updatedAt := some now }

/-- `findSimilarErrors(errorMessage)`: keeps the records whose filtered
word list shares, counted with the query's multiplicities, at least
`Math.min(3, words.length * 0.5)` words with the query. -/
def findSimilarErrors (errorMessage : String) (registry : Registry) :
    List ErrorRecord :=
  let words := jsWords errorMessage
  registry.errors.filter (fun e =>
    let existingWords := jsWords e.message
    let commonWords := words.filter (fun w => existingWords.contains w)
    decide ((min (3 : ℚ) ((words.length : ℚ) * (0.5 : ℚ)))
      ≤ (commonWords.length : ℚ)))

/-- Single-character regex atoms: a literal character, `\w`, or `.`. -/
inductive RChar where
  | lit : Char → RChar
  | word : RChar
  | dot : RChar
deriving DecidableEq, Repr

/-- Whether a character matches an atom. -/
def RChar.matchesChar : RChar → Char → Bool
  | .lit c, d => c == d
  | .word, d => isWordChar d
  | .dot, d => isDotChar d

/-- The regular-expression fragment the source uses: sequences,
alternation, greedy `+`/`*` over single-character atoms, and numbered
capture groups. -/
inductive RE where
  | eps : RE
  | tok : RChar → RE
  | seq : RE → RE → RE
  | alt : RE → RE → RE
  | many : RChar → RE
  | many1 : RChar → RE
  | grp : Nat → RE → RE
deriving Repr

/-- Suffixes reachable by consuming a (greedy-first) run of characters
matching `p`: longest consumption first, as a JavaScript greedy `*`. -/
def manyTails (p : RChar) : List Char → List (List Char)
  | [] => [[]]
  | c :: s =>
    if p.matchesChar c then manyTails p s ++ [c :: s] else [c :: s]

/-- Greedy `+`: at least one character must match. -/
def many1Tails (p : RChar) : List Char → List (List Char)
  | [] => []
  | c :: s => if p.matchesChar c then manyTails p s else []

/-- Backtracking matcher: all `(rest, captures)` outcomes of matching `r`
against a prefix of `s`, in JavaScript preference order (alternation
left-first, quantifiers greedy-first).  Captures are recorded as
`(group index, captured characters)` pairs. -/
def reMatches : RE → List Char → List (List Char × List (Nat × List Char))
  | .eps, s => [(s, [])]
  | .tok p, s =>
    match s with
    | [] => []
    | c :: rest => if p.matchesChar c then [(rest, [])] else []
  | .seq a b, s =>
    (reMatches a s).flatMap (fun pr =>
      (reMatches b pr.1).map (fun qr => (qr.1, pr.2 ++ qr.2)))
  | .alt a b, s => reMatches a s ++ reMatches b s
  | .many p, s => (manyTails p s).map (fun r => (r, []))
  | .many1 p, s => (many1Tails p s).map (fun r => (r, []))
  | .grp i a, s =>
    (reMatches a s).map (fun pr =>
      (pr.1, pr.2 ++ [(i, s.take (s.length - pr.1.length))]))

/-- Number of capture groups of an expression. -/
def countGroups : RE → Nat
  | .eps => 0
  | .tok _ => 0
  | .seq a b => countGroups a + countGroups b
  | .alt a b => countGroups a + countGroups b
  | .many _ => 0
  | .many1 _ => 0
  | .grp _ a => countGroups a + 1

/-- The last recorded capture of group `i` (JavaScript keeps the last
iteration's capture; the source's groups capture exactly once). -/
def lookupCapture (caps : List (Nat × List Char)) (i : Nat) : List Char :=
  ((caps.reverse.find? (fun pr => pr.1 == i)).map (·.2)).getD []

/-- First (preferred) match of `r` at the very start of `s`:
the consumed characters and the capture records. -/
def tryMatchAt (r : RE) (s : List Char) :
    Option (List Char × List (Nat × List Char)) :=
  match reMatches r s with
  | [] => none
  | pr :: _ => some (s.take (s.length - pr.1.length), pr.2)

/-- Leftmost-match scan, as JavaScript `String.prototype.match` without
the `g` flag: the first offset admitting a match wins. -/
def scanMatch (r : RE) : List Char → Option (List Char × List (Nat × List Char))
  | [] => tryMatchAt r []
  | c :: rest =>
    match tryMatchAt r (c :: rest) with
    | some res => some res
    | none => scanMatch r rest

/-- `s.match(r)` reduced to what the source consumes: `match[0]` (the full
matched substring) and `match.slice(1)` (the captures, in group order). -/
def jsMatch (r : RE) (s : String) : Option (String × List String) :=
  (scanMatch r s.toList).map (fun pr =>
    (String.mk pr.1,
     (List.range (countGroups r)).map
       (fun i => String.mk (lookupCapture pr.2 (i + 1)))))

/-- A literal-string regex piece. -/
def reLit (s : String) : RE :=
  (s.toList.map (fun c => RE.tok (RChar.lit c))).foldr RE.seq RE.eps

/-- Right-nested sequencing of regex pieces. -/
def reSeq (rs : List RE) : RE := rs.foldr RE.seq RE.eps

/-- One extraction rule: `{ regex: ..., extract: '...' }`. -/
structure RulePattern where
  regex : RE
  extract : String

/-- One `ERROR_CATEGORIES` entry. -/
structure CategoryConfig where
  description : String
  testType : String
  patterns : List RulePattern

/-- `/(\w+) is not defined/` -/
def reNotDefined : RE :=
  reSeq [RE.grp 1 (RE.many1 RChar.word), reLit " is not defined"]

/-- `/Cannot read propert(y|ies) of (null|undefined)/` -/
def reNullAccess : RE :=
  reSeq [reLit "Cannot read propert",
    RE.grp 1 (RE.alt (reLit "y") (reLit "ies")),
    reLit " of ",
    RE.grp 2 (RE.alt (reLit "null") (reLit "undefined"))]

/-- `/Cannot access '(\w+)' before initialization/` -/
def reTdz : RE :=
  reSeq [reLit "Cannot access \x27", RE.grp 1 (RE.many1 RChar.word),
    reLit "\x27 before initialization"]

/-- `/(\w+) is not a function/` -/
def reNotFunction : RE :=
  reSeq [RE.grp 1 (RE.many1 RChar.word), reLit " is not a function"]

/-- `/ModuleNotFoundError: No module named '(\w+)'/` -/
def reModuleNotFound : RE :=
  reSeq [reLit "ModuleNotFoundError: No module named \x27",
    RE.grp 1 (RE.many1 RChar.word), reLit "\x27"]

/-- `/ImportError: cannot import name '(\w+)'/` -/
def reImportName : RE :=
  reSeq [reLit "ImportError: cannot import name \x27",
    RE.grp 1 (RE.many1 RChar.word), reLit "\x27"]

/-- `/NameError: name '(\w+)' is not defined/` -/
def reNameError : RE :=
  reSeq [reLit "NameError: name \x27", RE.grp 1 (RE.many1 RChar.word),
    reLit "\x27 is not defined"]

/-- `/AttributeError: '(\w+)' object has no attribute '(\w+)'/` -/
def reAttributeError : RE :=
  reSeq [reLit "AttributeError: \x27", RE.grp 1 (RE.many1 RChar.word),
    reLit "\x27 object has no attribute \x27",
    RE.grp 2 (RE.many1 RChar.word), reLit "\x27"]

/-- `/TypeError: (\w+)/` -/
def reTypeError : RE :=
  reSeq [reLit "TypeError: ", RE.grp 1 (RE.many1 RChar.word)]

/-- `/SIGSEGV.*QAccessible/` -/
def reSigsegv : RE :=
  reSeq [reLit "SIGSEGV", RE.many RChar.dot, reLit "QAccessible"]

/-- `/no such table: (\w+)/` -/
def reMissingTable : RE :=
  reSeq [reLit "no such table: ", RE.grp 1 (RE.many1 RChar.word)]

/-- The `ERROR_CATEGORIES` table, verbatim from the source. -/
def ERROR_CATEGORIES : List (String × CategoryConfig) := [
  ("js-runtime",
    { description := "JavaScript runtime errors (undefined variables, type errors)",
      testType := "playwright",
      patterns := [
        { regex := reNotDefined, extract := "variableName" },
        { regex := reNullAccess, extract := "nullAccess" },
        { regex := reTdz, extract := "temporalDeadZone" },
        { regex := reNotFunction, extract := "notFunction" }] }),
  ("js-syntax",
    { description := "JavaScript syntax errors",
      testType := "eslint",
      patterns := [
        { regex := reLit "Unexpected token", extract := "syntaxError" },
        { regex := reLit "Unterminated string", extract := "unterminatedString" }] }),
  ("python-import",
    { description := "Python import errors",
      testType := "python",
      patterns := [
        { regex := reModuleNotFound, extract := "moduleName" },
        { regex := reImportName, extract := "importName" }] }),
  ("python-runtime",
    { description := "Python runtime errors",
      testType := "python",
      patterns := [
        { regex := reNameError, extract := "variableName" },
        { regex := reAttributeError, extract := "attributeError" },
        { regex := reTypeError, extract := "typeError" }] }),
  ("qt-crash",
    { description := "Qt/PyQt crashes (SIGSEGV, accessibility)",
      testType := "manual",
      patterns := [
        { regex := reSigsegv, extract := "accessibilityCrash" },
        { regex := reLit "Segmentation fault", extract := "segfault" }] }),
  ("database",
    { description := "Database errors",
      testType := "python",
      patterns := [
        { regex := reLit "sqlite3.OperationalError", extract := "sqliteError" },
        { regex := reMissingTable, extract := "missingTable" }] })]

/-- The `for (const pattern of categoryConfig.patterns)` loop of
`detectPattern`: first rule whose regex matches wins. -/
def findRuleMatch (testType : String) (patterns : List RulePattern)
    (errorMessage : String) : Option DetectedPattern :=
  match patterns with
  | [] => none
  | p :: rest =>
    match jsMatch p.regex errorMessage with
    | some pr =>
      some { type := p.extract, matchStr := pr.1,
             captures := pr.2, testType := testType }
    | none => findRuleMatch testType rest errorMessage

/-- `detectPattern(errorMessage, category)`: `null` for an unknown
category, otherwise the first matching extraction rule's structured
result. -/
def detectPattern (errorMessage category : String) : Option DetectedPattern :=
  match ERROR_CATEGORIES.find? (fun pr => pr.1 == category) with
  | none => none
  | some pr => findRuleMatch pr.2.testType pr.2.patterns errorMessage

/-- `varName.charAt(0).toUpperCase() + varName.slice(1)`. -/
def capitalizeFirst (s : String) : String :=
  match s.toList with
  | [] => ""
  | c :: rest => String.mk (c.toUpper :: rest)

/-- `captures[i]` interpolated into a template literal: an out-of-range
access is `undefined` and interpolates as the text `undefined`. -/
def jsAt (l : List String) (i : Nat) : String := (l.get? i).getD "undefined"

/-- The `checkCode` template of the `variableName` case of
`generatePlaywrightTest` (braces, quotes and backticks of the generated
JavaScript are escaped character-for-character). -/
def pwVariableCheck (varName getterName : String) : String :=
  "\n        // Check that " ++ varName ++
  " is accessible (either as variable or via getter function)\n        // Original error: \"" ++
  varName ++
  " is not defined\"\n        const isAccessible = await page.evaluate(() => \x7b\n            try \x7b\n                // First check if getter function exists (e.g., getInheritorsList for inheritorsList)\n                if (typeof window." ++
  getterName ++
  " === \x27function\x27) \x7b\n                    window." ++
  getterName ++
  "();\n                    return true;\n                \x7d\n                // Then check if variable is directly accessible\n                if (typeof " ++
  varName ++
  " !== \x27undefined\x27) \x7b\n                    return true;\n                \x7d\n                // Check window scope\n                if (typeof window." ++
  varName ++
  " !== \x27undefined\x27) \x7b\n                    return true;\n                \x7d\n                return false;\n            \x7d catch (e) \x7b\n                console.error(\x27Access check failed:\x27, e.message);\n                return false;\n            \x7d\n        \x7d);\n        expect(isAccessible, \x27" ++
  varName ++ " should be accessible (directly or via " ++ getterName ++
  ")\x27).toBe(true);"

/-- The `checkCode` template of the `temporalDeadZone` case of
`generatePlaywrightTest`. -/
def pwTdzCheck (tdzVarName : String) : String :=
  "\n        // Check that " ++ tdzVarName ++
  " doesn\x27t cause TDZ error when accessed via functions\n        // Original error: \"Cannot access \x27" ++
  tdzVarName ++
  "\x27 before initialization\"\n        // This error typically occurs when let/const variables are accessed before declaration\n        const noTdzError = await page.evaluate(() => \x7b\n            const errors = [];\n            // Listen for any page errors\n            window.onerror = (msg) => errors.push(msg);\n\n            // Try calling functions that might use " ++
  tdzVarName ++
  "\n            // The fix is usually to wrap access in try-catch or check initialization\n            try \x7b\n                // If there are check/calculate functions, call them\n                const fnNames = Object.keys(window).filter(k =>\n                    typeof window[k] === \x27function\x27 &&\n                    (k.includes(\x27check\x27) || k.includes(\x27calculate\x27) || k.includes(\x27Tab\x27))\n                );\n                for (const fn of fnNames.slice(0, 10)) \x7b\n                    try \x7b\n                        window[fn]();\n                    \x7d catch (e) \x7b\n                        if (e.message && e.message.includes(\x27" ++
  tdzVarName ++
  "\x27) && e.message.includes(\x27before initialization\x27)) \x7b\n                            return false; // TDZ error found\n                        \x7d\n                    \x7d\n                \x7d\n                return true; // No TDZ errors\n            \x7d catch (e) \x7b\n                return !e.message?.includes(\x27before initialization\x27);\n            \x7d\n        \x7d);\n        expect(noTdzError, \x27" ++
  tdzVarName ++ " should not cause TDZ errors\x27).toBe(true);"

/-- The `checkCode` template of the `notFunction` case of
`generatePlaywrightTest`. -/
def pwNotFunctionCheck (fnName : String) : String :=
  "\n        // Check that " ++ fnName ++
  " is a function\n        const isFunction = await page.evaluate(() => \x7b\n            return typeof window." ++
  fnName ++
  " === \x27function\x27;\n        \x7d);\n        expect(isFunction, \x27" ++
  fnName ++ " should be a function\x27).toBe(true);"

/-- The outer `testCode` template of `generatePlaywrightTest`. -/
def pwTestWrapper (testName checkCode : String) : String :=
  "\n    test(\x27regression: " ++ testName ++
  "\x27, async (\x7b page \x7d) => \x7b\n        const htmlPath = path.resolve(__dirname, \x27../../src/frontend/index.html\x27);\n        await page.goto(\x60file://$\x7bhtmlPath\x7d\x60);\n        await page.waitForLoadState(\x27domcontentloaded\x27);\n        await page.waitForTimeout(1000);\n" ++
  checkCode ++ "\n    \x7d);"

/-- The `switch (type)` block of `generatePlaywrightTest`, which computes
`(testName, checkCode)` from the pattern type and `captures[0]` (the
only capture any of its branches reads); `none` is the `default` branch
(`return false`). -/
def pwSelect (type capture0 : String) : Option (String × String) :=
  match type with
  | "variableName" =>
    let varName := capture0
    let getterName := "get" ++ capitalizeFirst varName
    some ("variable_" ++ varName ++ "_accessible",
          pwVariableCheck varName getterName)
  | "temporalDeadZone" =>
    let tdzVarName := capture0
    some ("variable_" ++ tdzVarName ++ "_no_tdz", pwTdzCheck tdzVarName)
  | "notFunction" =>
    some ("function_" ++ capture0 ++ "_exists", pwNotFunctionCheck capture0)
  | _ => none

/-- `generatePlaywrightTest(error)`: dispatches on the detected pattern
type; on a known type appends a fragment to `registry.generatedTests`
and returns `true`, otherwise returns `false` and leaves the registry
unchanged. -/
def generatePlaywrightTest (error : ErrorRecord) (now : String)
    (registry : Registry) : Bool × Registry :=
  match error.detectedPattern with
  | none => (false, registry)
  | some dp =>
    match pwSelect dp.type (jsAt dp.captures 0) with
    | none => (false, registry)
    | some pr =>
      (true, { registry with
                 generatedTests := registry.generatedTests ++
                   [{ errorId := error.id, testName := pr.1,
                      testCode := pwTestWrapper pr.1 pr.2,
                      testType := "playwright", generatedAt := now }] })

/-- `generateESLintCheck(error)`: records a lint pattern entry and
reports success. -/
def generateESLintCheck (error : ErrorRecord) (now : String)
    (registry : Registry) : Bool × Registry :=
  (true, { registry with
             patterns := registry.patterns ++
               [{ errorId := error.id, type := "eslint",
                  rule := "no-undef", generatedAt := now }] })

/-- The `testCode` template of the `moduleName` case of
`generatePythonTest`. -/
def pyModuleCheck (testName modName : String) : String :=
  "\ndef " ++ testName ++
  "():\n    \"\"\"Regression test: ensure " ++ modName ++
  " module is importable\"\"\"\n    try:\n        import " ++ modName ++
  "\n        assert True\n    except ImportError:\n        pytest.fail(\"" ++
  modName ++ " module should be importable\")\n"

/-- The `testCode` template of the `variableName` case of
`generatePythonTest`. -/
def pyVariableCheck (testName varName : String) : String :=
  "\ndef " ++ testName ++
  "():\n    \"\"\"Regression test: ensure " ++ varName ++
  " is defined\"\"\"\n    # This test should be customized based on the module context\n    pass\n"

/-- The `switch (type)` block of `generatePythonTest`, computing
`(testName, testCode)` from the pattern type and `captures[0]`; `none`
is the `default` branch. -/
def pySelect (type capture0 : String) : Option (String × String) :=
  match type with
  | "moduleName" =>
    let testName := "test_module_" ++ capture0 ++ "_importable"
    some (testName, pyModuleCheck testName capture0)
  | "variableName" =>
    let testName := "test_variable_" ++ capture0 ++ "_defined"
    some (testName, pyVariableCheck testName capture0)
  | _ => none

/-- `generatePythonTest(error)`: dispatches on the detected pattern
type; appends a fragment on a known type, otherwise fails. -/
def generatePythonTest (error : ErrorRecord) (now : String)
    (registry : Registry) : Bool × Registry :=
  match error.detectedPattern with
  | none => (false, registry)
  | some dp =>
    match pySelect dp.type (jsAt dp.captures 0) with
    | none => (false, registry)
    | some pr =>
      (true, { registry with
                 generatedTests := registry.generatedTests ++
                   [{ errorId := error.id, testName := pr.1,
                      testCode := pr.2, testType := "python",
                      generatedAt := now }] })

/-- `generateTestForError(error)`: dispatches on the detected pattern's
`testType`; with no detected pattern, or a `testType` without a
synthesis strategy (e.g. `manual`), returns `false`. -/
def generateTestForError (error : ErrorRecord) (now : String)
    (registry : Registry) : Bool × Registry :=
  match error.detectedPattern with
  | none => (false, registry)
  | some dp =>
    match dp.testType with
    | "playwright" => generatePlaywrightTest error now registry
    | "eslint" => generateESLintCheck error now registry
    | "python" => generatePythonTest error now registry
    | _ => (false, registry)

/-- The record object literal `reportError` builds before synthesis:
status `new`, `testGenerated` false, detected pattern from
`detectPattern`, and `similarErrors` set only when similar records
exist. -/
def newFailureRecord (errorMessage category : String)
    (context : List (String × String)) (newId now : String)
    (registry : Registry) : ErrorRecord :=
  let similar := findSimilarErrors errorMessage registry
  { id := newId, message := errorMessage, category := category,
    context := context, reportedAt := now, status := "new",
    testGenerated := false,
    detectedPattern := detectPattern errorMessage category,
    similarErrors := if similar.isEmpty then none
                     else some (similar.map (fun e => e.id)) }

/-- `reportError(errorMessage, category, context)`: builds the record,
persists it, attempts synthesis, and flips `testGenerated`/`status`
exactly on success.  The generated id and the clock are explicit
parameters (`newId`, `now`). -/
def reportError (errorMessage category : String)
    (context : List (String × String)) (newId now : String)
    (registry : Registry) : ErrorRecord × Registry :=
  let pre := newFailureRecord errorMessage category context newId now registry
  let reg1 := saveRegistry now { registry with errors := registry.errors ++ [pre] }
  let gen := generateTestForError pre now reg1
  if gen.1 then
    let final := { pre with testGenerated := true, status := "test-generated" }
    (final, saveRegistry now { gen.2 with errors := registry.errors ++ [final] })
  else
    (pre, gen.2)

/-- The fixed frame `exportPlaywrightTests` writes around the joined
fragment bodies (everything before the interpolation). -/
def playwrightFileHeader : String :=
  "// @ts-check\nconst \x7b test, expect \x7d = require(\x27@playwright/test\x27);\nconst path = require(\x27path\x27);\n\n/**\n * Auto-generated Regression Tests\n *\n * These tests were automatically generated by the Error Learning System\n * to prevent previously encountered errors from recurring.\n *\n * DO NOT EDIT MANUALLY - regenerate using:\n *   node ../agentic-dev-pipeline/workflows/error-learning.js \x2d\x2dexport-tests\n */\n\ntest.describe(\x27Regression Tests - Error Prevention\x27, () => \x7b\n"

/-- `exportPlaywrightTests(projectPath, tests)` as a function from the
existing file text (empty when the file is absent) to the final file
text: fragments whose name already occurs in the existing text are
filtered out; when none remain the file is left untouched, otherwise
the file is rewritten with the frame around the remaining fragments. -/
def exportPlaywrightTests (existingTests : String)
    (tests : List GeneratedTest) : String :=
  let newTests := tests.filter (fun t => !(jsIncludes existingTests t.testName))
  if newTests.isEmpty then existingTests
  else
    playwrightFileHeader ++
      String.intercalate "\n" (newTests.map (fun t => t.testCode)) ++
      "\n\x7d);\n"

/-- The fixed frame `exportPythonTests` writes before the joined
fragment bodies. -/
def pythonFileHeader : String :=
  "\"\"\"\nAuto-generated Regression Tests\n\nThese tests were automatically generated by the Error Learning System\nto prevent previously encountered errors from recurring.\n\nDO NOT EDIT MANUALLY - regenerate using:\n    node ../agentic-dev-pipeline/workflows/error-learning.js \x2d\x2dexport-tests\n\"\"\"\n\nimport pytest\nimport sys\nimport os\n\nsys.path.insert(0, os.path.join(os.path.dirname(__file__), \x27..\x27, \x27src\x27, \x27backend\x27))\n\n"

/-- `exportPythonTests(projectPath, tests)` as a function from the
existing file text to the final file text. -/
def exportPythonTests (existingTests : String)
    (tests : List GeneratedTest) : String :=
  let newTests := tests.filter (fun t => !(jsIncludes existingTests t.testName))
  if newTests.isEmpty then existingTests
  else
    pythonFileHeader ++
      String.intercalate "\n" (newTests.map (fun t => t.testCode)) ++ "\n"

/-- `exportTests(projectPath)`: splits the registry's fragments by test
kind and runs each kind's export when it has fragments; returns the two
final file texts and the per-kind counts the source reports. -/
def exportTests (registry : Registry) (pwExisting pyExisting : String) :
    (String × String) × (Nat × Nat) :=
  let playwrightTests := registry.generatedTests.filter
    (fun t => t.testType == "playwright")
  let pythonTests := registry.generatedTests.filter
    (fun t => t.testType == "python")
  let pwFile := if playwrightTests.length > 0
                then exportPlaywrightTests pwExisting playwrightTests
                else pwExisting
  let pyFile := if pythonTests.length > 0
                then exportPythonTests pyExisting pythonTests
                else pyExisting
  ((pwFile, pyFile), (playwrightTests.length, pythonTests.length))

/-! ### Concrete fixtures used by the claim theorems -/

/-- A freshly initialised registry (`loadRegistry`'s fallback shape). -/
def regEmpty : Registry :=
  { projectName := "p", version := "1.0", createdAt := "t0", errors := [],
    generatedTests := [], patterns := [], updatedAt := none }

/-- A record reported for `alphaVar is not defined` under `js-runtime`. -/
def recAlpha : ErrorRecord :=
  { id := "errA", message := "alphaVar is not defined",
    category := "js-runtime", context := [], reportedAt := "t0",
    status := "new", testGenerated := false,
    detectedPattern := detectPattern "alphaVar is not defined" "js-runtime",
    similarErrors := none }

/-- A record reported for `betaVar is not defined` under `js-runtime`. -/
def recBeta : ErrorRecord :=
  { id := "errB", message := "betaVar is not defined",
    category := "js-runtime", context := [], reportedAt := "t0",
    status := "new", testGenerated := false,
    detectedPattern := detectPattern "betaVar is not defined" "js-runtime",
    similarErrors := none }

/-- The two Playwright fragments the synthesizer produces for
`recAlpha` and `recBeta`. -/
def fragsAB : List GeneratedTest :=
  ((generatePlaywrightTest recBeta "t1"
      (generatePlaywrightTest recAlpha "t1" regEmpty).2).2).generatedTests

/-- The single Playwright fragment produced for `recAlpha`. -/
def fragsAlpha : List GeneratedTest :=
  (generatePlaywrightTest recAlpha "t1" regEmpty).2.generatedTests

/-! ### Claim theorems -/

/-- **C8.** `detectPattern("fooBar is not defined", "js-runtime")` returns
the `variableName` extraction with full match `"fooBar is not defined"`
and first capture `"fooBar"`, tagged with the category's `playwright`
test kind. -/
theorem C8_detect_undefined_identifier :
    detectPattern "fooBar is not defined" "js-runtime"
      = some { type := "variableName", matchStr := "fooBar is not defined",
               captures := ["fooBar"], testType := "playwright" } := by
  decide

/-- **C6.** Reporting `"Segmentation fault"` under `qt-crash` yields a
record whose detected pattern is the recognised `segfault` extraction
(of the `manual` test kind), yet synthesis produces nothing: running
`generateTestForError` on the stored record returns `false`,
`registry.generatedTests` is unchanged, and the record keeps
`testGenerated = false` and `status = "new"`. -/
theorem C6_process_crash_no_fragment (ctx : List (String × String))
    (newId now : String) (reg : Registry) :
    (reportError "Segmentation fault" "qt-crash" ctx newId now reg).1.detectedPattern
      = some { type := "segfault", matchStr := "Segmentation fault",
               captures := [], testType := "manual" } ∧
    (generateTestForError
        (reportError "Segmentation fault" "qt-crash" ctx newId now reg).1
        now reg).1 = false ∧
    (reportError "Segmentation fault" "qt-crash" ctx newId now reg).1.testGenerated
      = false ∧
    (reportError "Segmentation fault" "qt-crash" ctx newId now reg).1.status
      = "new" ∧
    (reportError "Segmentation fault" "qt-crash" ctx newId now reg).2.generatedTests
      = reg.generatedTests := by
  refine ⟨rfl, rfl, rfl, rfl, rfl⟩

/-- **C5.** Reporting a failure whose category is not in the taxonomy
(e.g. `"totally-unrecognized"`) stores a record with no detected
pattern, `testGenerated = false` and status `new`; the operation is a
total function of its inputs (no exception), and the record is appended
to the registry. -/
theorem C5_unknown_category (msg cat : String) (ctx : List (String × String))
    (newId now : String) (reg : Registry)
    (h : ERROR_CATEGORIES.find? (fun pr => pr.1 == cat) = none) :
    (reportError msg cat ctx newId now reg).1.detectedPattern = none ∧
    (reportError msg cat ctx newId now reg).1.testGenerated = false ∧
    (reportError msg cat ctx newId now reg).1.status = "new" ∧
    (reportError msg cat ctx newId now reg).2.errors
      = reg.errors ++ [(reportError msg cat ctx newId now reg).1] := by
  have hdp : detectPattern msg cat = none := by
    unfold detectPattern
    rw [h]
  have hpre : (newFailureRecord msg cat ctx newId now reg).detectedPattern
      = none := hdp
  have hgen : ∀ r : Registry,
      generateTestForError (newFailureRecord msg cat ctx newId now reg) now r
        = (false, r) := by
    intro r
    unfold generateTestForError
    rw [hpre]
  unfold reportError
  dsimp only
  rw [hgen]
  exact ⟨hpre, rfl, rfl, rfl⟩

/-- Witness for `C5_unknown_category` at the category
`"totally-unrecognized"` on the empty registry. -/
theorem C5_witness :
    (ERROR_CATEGORIES.find? (fun pr => pr.1 == "totally-unrecognized") = none) ∧
    ((reportError "whatever happens here" "totally-unrecognized" [] "id5" "t5"
        regEmpty).1.detectedPattern = none ∧
     (reportError "whatever happens here" "totally-unrecognized" [] "id5" "t5"
        regEmpty).1.testGenerated = false ∧
     (reportError "whatever happens here" "totally-unrecognized" [] "id5" "t5"
        regEmpty).1.status = "new" ∧
     (reportError "whatever happens here" "totally-unrecognized" [] "id5" "t5"
        regEmpty).2.errors
       = regEmpty.errors ++
         [(reportError "whatever happens here" "totally-unrecognized" [] "id5"
             "t5" regEmpty).1]) :=
  ⟨by rfl, C5_unknown_category _ _ _ _ _ _ (by rfl)⟩

/-- The JavaScript comparison `common >= Math.min(3, n * 0.5)` (carried
out in rational arithmetic, exact for these operands) translated to the
naturals. -/
lemma ratThreshold (n m : ℕ) :
    ((min (3 : ℚ) ((n : ℚ) * (0.5 : ℚ))) ≤ (m : ℚ)) ↔ (min 6 n ≤ 2 * m) := by
  have h05 : (0.5 : ℚ) = 1 / 2 := by norm_num
  rw [min_le_iff, min_le_iff, h05]
  constructor
  · rintro (h | h)
    · have h3 : (3 : ℕ) ≤ m := by exact_mod_cast h
      left
      omega
    · have h2 : (n : ℚ) ≤ 2 * (m : ℚ) := by linarith
      have h3 : n ≤ 2 * m := by exact_mod_cast h2
      right
      omega
  · rintro (h | h)
    · have h3 : (3 : ℕ) ≤ m := by omega
      left
      exact_mod_cast h3
    · have h3 : n ≤ 2 * m := by omega
      have h2 : (n : ℚ) ≤ 2 * (m : ℚ) := by exact_mod_cast h3
      right
      linarith

/-- `findSimilarErrors` with its rational threshold comparison replaced
by the equivalent natural-number comparison (used to evaluate the
function on concrete fixtures). -/
lemma findSimilar_natForm (q : String) (reg : Registry) :
    findSimilarErrors q reg = reg.errors.filter (fun e =>
      decide (min 6 (jsWords q).length
        ≤ 2 * ((jsWords q).filter
            (fun w => (jsWords e.message).contains w)).length)) := by
  unfold findSimilarErrors
  apply List.filter_congr
  intro e _
  exact decide_eq_decide.mpr (ratThreshold _ _)

/-- **C10 (implicit edge case).** When the query has no word longer
than 3 characters its filtered word list is empty, the threshold
`Math.min(3, 0 * 0.5)` is `0`, and `findSimilarErrors` returns every
record of the (non-empty) corpus. -/
theorem C10_short_word_query_matches_all (q : String) (reg : Registry)
    (hq : jsWords q = []) (_hne : reg.errors ≠ []) :
    findSimilarErrors q reg = reg.errors := by
  unfold findSimilarErrors
  apply List.filter_eq_self.mpr
  intro a _
  rw [decide_eq_true_eq, hq]
  norm_num

/-- A registry holding one record whose message is `"aaaa"`. -/
def recAAAA : ErrorRecord :=
  { id := "q1", message := "aaaa", category := "unknown", context := [],
    reportedAt := "t0", status := "new", testGenerated := false,
    detectedPattern := none, similarErrors := none }

/-- Corpus fixture for the similarity claims. -/
def regAAAA : Registry := { regEmpty with errors := [recAAAA] }

/-- Witness for `C10_short_word_query_matches_all` on the query
`"a bb cc dd"` against `regAAAA`. -/
theorem C10_witness :
    (jsWords "a bb cc dd" = [] ∧ regAAAA.errors ≠ []) ∧
    findSimilarErrors "a bb cc dd" regAAAA = regAAAA.errors :=
  ⟨⟨by decide, by decide⟩,
   C10_short_word_query_matches_all _ _ (by decide) (by decide)⟩

/-- The similarity membership formula as the specification words it
(claim C3): the *set* intersection of the two filtered token sets must
reach `min(3, 0.5 × the query's filtered token count)`.  Kept separate
from `findSimilarErrors` (which is translated from the source) so the
two can be compared. -/
def specSimilarMembership (queryText recordText : String) : Bool :=
  let qs := (jsWords queryText).dedup
  let rs := (jsWords recordText).dedup
  decide ((min (3 : ℚ) ((qs.length : ℚ) * (0.5 : ℚ)))
    ≤ ((rs.inter qs).length : ℚ))

/-- The spec-side membership formula over the naturals (for concrete
evaluation). -/
lemma specSimilar_natForm (queryText recordText : String) :
    specSimilarMembership queryText recordText
      = decide (min 6 ((jsWords queryText).dedup).length
          ≤ 2 * (((jsWords recordText).dedup).inter
              ((jsWords queryText).dedup)).length) := by
  unfold specSimilarMembership
  exact decide_eq_decide.mpr (ratThreshold _ _)

/-- **C3, counterexample.** On the query `"aaaa aaaa bbbb cccc"` the code
returns the record `"aaaa"` (the duplicated query token is counted twice,
`2 ≥ min(3, 4 · 0.5)`), while the claim's set-intersection formula
rejects it: the intersection has size `1`, below `min(3, 0.5 × 3)` (set
count) and below `min(3, 0.5 × 4)` (multiset count) alike. -/
theorem C3_counterexample :
    (findSimilarErrors "aaaa aaaa bbbb cccc" regAAAA).map (fun e => e.id)
      = ["q1"] ∧
    (((jsWords "aaaa").dedup).inter ((jsWords "aaaa aaaa bbbb cccc").dedup)).length
      = 1 ∧
    specSimilarMembership "aaaa aaaa bbbb cccc" "aaaa" = false := by
  rw [findSimilar_natForm, specSimilar_natForm]
  decide

/-- **C3, amended.** `findSimilarErrors` returns exactly the records for
which the number of query tokens (lowercase words of length > 3,
counted *with multiplicity*) that occur among the record's tokens is at
least `min(3, 0.5 × the query's token count with multiplicity)` — stated
over the naturals as `min 6 n ≤ 2·common`. -/
theorem C3_membership_characterized (q : String) (reg : Registry)
    (r : ErrorRecord) :
    r ∈ findSimilarErrors q reg ↔
      r ∈ reg.errors ∧
        min 6 (jsWords q).length
          ≤ 2 * ((jsWords q).filter
              (fun w => (jsWords r.message).contains w)).length := by
  unfold findSimilarErrors
  rw [List.mem_filter]
  simp only [decide_eq_true_eq]
  exact and_congr_right (fun _ => ratThreshold _ _)

/-- Record fixture: `"fooBar is not defined in init.js"`. -/
def recInit : ErrorRecord :=
  { recAAAA with id := "r1", message := "fooBar is not defined in init.js" }

/-- Record fixture: `"fooBar is not defined in main.js"`. -/
def recMain : ErrorRecord :=
  { recAAAA with id := "r2", message := "fooBar is not defined in main.js" }

/-- Corpus containing `recInit`. -/
def regInit : Registry := { regEmpty with errors := [recInit] }

/-- Corpus containing `recMain`. -/
def regMain : Registry := { regEmpty with errors := [recMain] }

/-- Record fixture: message `"abcd"`. -/
def recAbcd : ErrorRecord := { recAAAA with id := "s1", message := "abcd" }

/-- Record fixture: message `"abcd efgh"`. -/
def recAbcdEfgh : ErrorRecord :=
  { recAAAA with id := "s2", message := "abcd efgh" }

/-- Corpus containing `recAbcd`. -/
def regAbcd : Registry := { regEmpty with errors := [recAbcd] }

/-- Corpus containing `recAbcdEfgh`. -/
def regAbcdEfgh : Registry := { regEmpty with errors := [recAbcdEfgh] }

/-- **C7, counterexample.** `"abcd"` and `"abcd efgh"` share exactly one
word longer than 3 characters, yet each is returned by
`findSimilarErrors` when the other's message is the query (thresholds
`min(3, 0.5)` and `min(3, 1)` are at most the single common word), so
"never mutually similar" fails. -/
theorem C7_counterexample :
    ((jsWords "abcd").filter
        (fun w => (jsWords "abcd efgh").contains w)).dedup = ["abcd"] ∧
    ((jsWords "abcd efgh").filter
        (fun w => (jsWords "abcd").contains w)).dedup = ["abcd"] ∧
    recAbcd ∈ findSimilarErrors "abcd efgh" regAbcd ∧
    recAbcdEfgh ∈ findSimilarErrors "abcd" regAbcdEfgh := by
  rw [findSimilar_natForm, findSimilar_natForm]
  decide

/-- **C7, amended.** The two `fooBar ... init.js` / `fooBar ... main.js`
records are mutually similar (each is returned when the other's message
is the query against a corpus containing it); and two messages that
share only a single common-token occurrence are not mutually similar in
either direction, provided each message has at least three words longer
than 3 characters (for such queries `min(3, 0.5·n)` exceeds one common
occurrence; the counterexample's messages have fewer). -/
theorem C7_similarity_threshold (m1 m2 w1 w2 : String)
    (reg1 reg2 : Registry) (rec1 rec2 : ErrorRecord)
    (h1 : (jsWords m1).filter (fun w => (jsWords m2).contains w) = [w1])
    (h2 : (jsWords m2).filter (fun w => (jsWords m1).contains w) = [w2])
    (hl1 : 3 ≤ (jsWords m1).length) (hl2 : 3 ≤ (jsWords m2).length)
    (hm1 : rec1.message = m1) (hm2 : rec2.message = m2) :
    (recInit ∈ findSimilarErrors "fooBar is not defined in main.js" regInit ∧
     recMain ∈ findSimilarErrors "fooBar is not defined in init.js" regMain) ∧
    rec2 ∉ findSimilarErrors m1 reg2 ∧
    rec1 ∉ findSimilarErrors m2 reg1 := by
  refine ⟨by rw [findSimilar_natForm, findSimilar_natForm]; decide, ?_, ?_⟩
  · intro hmem
    unfold findSimilarErrors at hmem
    rw [List.mem_filter] at hmem
    have hp := hmem.2
    rw [decide_eq_true_eq] at hp
    rw [hm2, h1] at hp
    have := (ratThreshold (jsWords m1).length 1).mp hp
    omega
  · intro hmem
    unfold findSimilarErrors at hmem
    rw [List.mem_filter] at hmem
    have hp := hmem.2
    rw [decide_eq_true_eq] at hp
    rw [hm1, h2] at hp
    have := (ratThreshold (jsWords m2).length 1).mp hp
    omega

/-- Record fixture for the C7 witness: six significant words, sharing
only `wordword` with `recWordB`'s message. -/
def recWordA : ErrorRecord :=
  { recAAAA with id := "w1", message := "wordword aaaa1 bbbb1 cccc1 dddd1 eeee1" }

/-- Record fixture for the C7 witness. -/
def recWordB : ErrorRecord :=
  { recAAAA with id := "w2", message := "wordword xxxx1 yyyy1 zzzz1 qqqq1 rrrr1" }

/-- Corpus containing `recWordA`. -/
def regWordA : Registry := { regEmpty with errors := [recWordA] }

/-- Corpus containing `recWordB`. -/
def regWordB : Registry := { regEmpty with errors := [recWordB] }

/-- Witness for `C7_similarity_threshold`: two six-word messages sharing
exactly the one word `wordword` are similar in neither direction. -/
theorem C7_witness :
    ((jsWords "wordword aaaa1 bbbb1 cccc1 dddd1 eeee1").filter
        (fun w =>
          (jsWords "wordword xxxx1 yyyy1 zzzz1 qqqq1 rrrr1").contains w)
      = ["wordword"]) ∧
    ((recInit ∈ findSimilarErrors "fooBar is not defined in main.js" regInit ∧
      recMain ∈ findSimilarErrors "fooBar is not defined in init.js" regMain) ∧
     recWordB ∉ findSimilarErrors "wordword aaaa1 bbbb1 cccc1 dddd1 eeee1" regWordB ∧
     recWordA ∉ findSimilarErrors "wordword xxxx1 yyyy1 zzzz1 qqqq1 rrrr1" regWordA) :=
  ⟨by decide,
   C7_similarity_threshold
     "wordword aaaa1 bbbb1 cccc1 dddd1 eeee1"
     "wordword xxxx1 yyyy1 zzzz1 qqqq1 rrrr1"
     "wordword" "wordword" regWordA regWordB recWordA recWordB
     (by decide) (by decide) (by decide) (by decide) (by decide) (by decide)⟩

/-- The success flag of `generatePlaywrightTest` does not depend on the
registry it is given. -/
lemma generatePlaywrightTest_fst (e : ErrorRecord) (now : String)
    (r r' : Registry) :
    (generatePlaywrightTest e now r).1 = (generatePlaywrightTest e now r').1 := by
  unfold generatePlaywrightTest
  split
  · rfl
  · split <;> rfl

/-- The success flag of `generatePythonTest` does not depend on the
registry it is given. -/
lemma generatePythonTest_fst (e : ErrorRecord) (now : String)
    (r r' : Registry) :
    (generatePythonTest e now r).1 = (generatePythonTest e now r').1 := by
  unfold generatePythonTest
  split
  · rfl
  · split <;> rfl

/-- The success flag of `generateTestForError` does not depend on the
registry it is given. -/
lemma generateTestForError_fst (e : ErrorRecord) (now : String)
    (r r' : Registry) :
    (generateTestForError e now r).1 = (generateTestForError e now r').1 := by
  unfold generateTestForError
  split
  · rfl
  · split
    · exact generatePlaywrightTest_fst e now r r'
    · rfl
    · exact generatePythonTest_fst e now r r'
    · rfl

/-- `generatePlaywrightTest` never touches `registry.errors`. -/
lemma generatePlaywrightTest_errors (e : ErrorRecord) (now : String)
    (r : Registry) :
    (generatePlaywrightTest e now r).2.errors = r.errors := by
  unfold generatePlaywrightTest
  split
  · rfl
  · split <;> rfl

/-- `generatePythonTest` never touches `registry.errors`. -/
lemma generatePythonTest_errors (e : ErrorRecord) (now : String)
    (r : Registry) :
    (generatePythonTest e now r).2.errors = r.errors := by
  unfold generatePythonTest
  split
  · rfl
  · split <;> rfl

/-- `generateTestForError` never touches `registry.errors`. -/
lemma generateTestForError_errors (e : ErrorRecord) (now : String)
    (r : Registry) :
    (generateTestForError e now r).2.errors = r.errors := by
  unfold generateTestForError
  split
  · rfl
  · split
    · exact generatePlaywrightTest_errors e now r
    · rfl
    · exact generatePythonTest_errors e now r
    · rfl

/-- The claimed coupling between `status` and `testGenerated`, for every
record of a registry: the two flags agree, and `status` is one of
`new` / `test-generated`. -/
def StatusInvariant (registry : Registry) : Prop :=
  ∀ e ∈ registry.errors,
    (e.status = "test-generated" ↔ e.testGenerated = true) ∧
    (e.status = "new" ∨ e.status = "test-generated")

/-- **C4.** `reportError` preserves the status/testGenerated invariant;
the final registry is the old records (unchanged, so a record that
already reached `test-generated` never transitions again) plus the new
record; and the new record carries `test-generated` exactly when the
synthesis attempt on it succeeds (the record with its pre-synthesis
flags restored is exactly what `generateTestForError` was given, and
its success flag is registry-independent). -/
theorem C4_status_transition (msg cat : String) (ctx : List (String × String))
    (newId now : String) (reg : Registry) (h : StatusInvariant reg) :
    StatusInvariant (reportError msg cat ctx newId now reg).2 ∧
    (reportError msg cat ctx newId now reg).2.errors
      = reg.errors ++ [(reportError msg cat ctx newId now reg).1] ∧
    ((reportError msg cat ctx newId now reg).1.status = "test-generated"
      ↔ (generateTestForError
           { (reportError msg cat ctx newId now reg).1 with
               testGenerated := false, status := "new" } now reg).1 = true) := by
  unfold reportError
  dsimp only
  split
  case isTrue hg =>
    refine ⟨?_, rfl, ?_⟩
    · intro e he
      simp only [saveRegistry] at he
      rcases List.mem_append.mp he with hold | hnew
      · exact h e hold
      · rcases List.mem_singleton.mp hnew with rfl
        exact ⟨by simp, Or.inr rfl⟩
    · constructor
      · intro _
        rw [generateTestForError_fst _ _ reg (saveRegistry now { reg with
          errors := reg.errors ++ [newFailureRecord msg cat ctx newId now reg] })]
        exact hg
      · intro _
        rfl
  case isFalse hg =>
    refine ⟨?_, ?_, ?_⟩
    · intro e he
      rw [generateTestForError_errors] at he
      simp only [saveRegistry] at he
      rcases List.mem_append.mp he with hold | hnew
      · exact h e hold
      · rcases List.mem_singleton.mp hnew with rfl
        exact ⟨by simp [newFailureRecord], by simp [newFailureRecord]⟩
    · rw [generateTestForError_errors]
      rfl
    · constructor
      · intro hs
        exact absurd hs (by simp [newFailureRecord])
      · intro hb
        rw [generateTestForError_fst _ _ reg (saveRegistry now { reg with
          errors := reg.errors ++ [newFailureRecord msg cat ctx newId now reg] })] at hb
        exact absurd hb hg

/-- Witness for `C4_status_transition`: the empty registry satisfies the
invariant, and reporting `"fooBar is not defined"` under `js-runtime`
keeps it. -/
theorem C4_witness :
    StatusInvariant regEmpty ∧
    (StatusInvariant
        (reportError "fooBar is not defined" "js-runtime" [] "idw" "tw"
          regEmpty).2 ∧
     (reportError "fooBar is not defined" "js-runtime" [] "idw" "tw"
        regEmpty).2.errors
       = regEmpty.errors ++
         [(reportError "fooBar is not defined" "js-runtime" [] "idw" "tw"
             regEmpty).1] ∧
     ((reportError "fooBar is not defined" "js-runtime" [] "idw" "tw"
          regEmpty).1.status = "test-generated"
       ↔ (generateTestForError
            { (reportError "fooBar is not defined" "js-runtime" [] "idw" "tw"
                regEmpty).1 with
                testGenerated := false, status := "new" } "tw" regEmpty).1
           = true)) := by
  have hw : StatusInvariant regEmpty := by
    intro e he
    cases he
  exact ⟨hw, C4_status_transition _ _ _ _ _ _ hw⟩

/-- The names of the fragments `generatePlaywrightTest` appends are a
function of the detected pattern's type and first capture only. -/
lemma pwNewNames (e : ErrorRecord) (now : String) (r : Registry)
    (dp : DetectedPattern) (h : e.detectedPattern = some dp) :
    ((generatePlaywrightTest e now r).2.generatedTests.drop
        r.generatedTests.length).map (fun t => t.testName)
      = ((pwSelect dp.type (jsAt dp.captures 0)).map (fun pr => pr.1)).toList := by
  unfold generatePlaywrightTest
  rw [h]
  cases hsel : pwSelect dp.type (jsAt dp.captures 0) with
  | none => simp [hsel]
  | some pr => simp [hsel, List.drop_left]

/-- The names of the fragments `generatePythonTest` appends are a
function of the detected pattern's type and first capture only. -/
lemma pyNewNames (e : ErrorRecord) (now : String) (r : Registry)
    (dp : DetectedPattern) (h : e.detectedPattern = some dp) :
    ((generatePythonTest e now r).2.generatedTests.drop
        r.generatedTests.length).map (fun t => t.testName)
      = ((pySelect dp.type (jsAt dp.captures 0)).map (fun pr => pr.1)).toList := by
  unfold generatePythonTest
  rw [h]
  cases hsel : pySelect dp.type (jsAt dp.captures 0) with
  | none => simp [hsel]
  | some pr => simp [hsel, List.drop_left]

/-- **C9.** Two records with detected patterns of the same extraction
kind and the same first capture value receive fragments with identical
names from either synthesis operation, whatever their other fields,
timestamps or registries (identical category merely fixes which
synthesizer runs, since the test kind is derived from the category). -/
theorem C9_deterministic_naming (r1 r2 : ErrorRecord)
    (p1 p2 : DetectedPattern) (now1 now2 : String) (g1 g2 : Registry)
    (h1 : r1.detectedPattern = some p1) (h2 : r2.detectedPattern = some p2)
    (ht : p1.type = p2.type) (hc : jsAt p1.captures 0 = jsAt p2.captures 0) :
    (((generatePlaywrightTest r1 now1 g1).2.generatedTests.drop
         g1.generatedTests.length).map (fun t => t.testName)
       = ((generatePlaywrightTest r2 now2 g2).2.generatedTests.drop
           g2.generatedTests.length).map (fun t => t.testName)) ∧
    (((generatePythonTest r1 now1 g1).2.generatedTests.drop
         g1.generatedTests.length).map (fun t => t.testName)
       = ((generatePythonTest r2 now2 g2).2.generatedTests.drop
           g2.generatedTests.length).map (fun t => t.testName)) := by
  rw [pwNewNames r1 now1 g1 p1 h1, pwNewNames r2 now2 g2 p2 h2,
      pyNewNames r1 now1 g1 p1 h1, pyNewNames r2 now2 g2 p2 h2, ht, hc]
  exact ⟨rfl, rfl⟩

/-- Pattern fixture: `variableName` with first capture `fooBar`. -/
def dpFoo1 : DetectedPattern :=
  { type := "variableName", matchStr := "fooBar is not defined",
    captures := ["fooBar"], testType := "playwright" }

/-- Pattern fixture: same kind and first capture as `dpFoo1`, different
full match and trailing captures. -/
def dpFoo2 : DetectedPattern :=
  { type := "variableName", matchStr := "fooBar is not defined today",
    captures := ["fooBar", "extra"], testType := "playwright" }

/-- Record fixture carrying `dpFoo1`. -/
def recFoo1 : ErrorRecord :=
  { recAAAA with id := "f1", message := "fooBar is not defined",
                 category := "js-runtime", detectedPattern := some dpFoo1 }

/-- Record fixture carrying `dpFoo2`. -/
def recFoo2 : ErrorRecord :=
  { recAAAA with id := "f2", message := "oh no fooBar is not defined today",
                 category := "js-runtime", detectedPattern := some dpFoo2 }

/-- Witness for `C9_deterministic_naming` on `recFoo1`/`recFoo2` with
different timestamps and registries. -/
theorem C9_witness :
    (recFoo1.detectedPattern = some dpFoo1 ∧
     recFoo2.detectedPattern = some dpFoo2 ∧
     dpFoo1.type = dpFoo2.type ∧
     jsAt dpFoo1.captures 0 = jsAt dpFoo2.captures 0) ∧
    ((((generatePlaywrightTest recFoo1 "n1" regEmpty).2.generatedTests.drop
          regEmpty.generatedTests.length).map (fun t => t.testName)
        = ((generatePlaywrightTest recFoo2 "n2" regAAAA).2.generatedTests.drop
            regAAAA.generatedTests.length).map (fun t => t.testName)) ∧
     (((generatePythonTest recFoo1 "n1" regEmpty).2.generatedTests.drop
          regEmpty.generatedTests.length).map (fun t => t.testName)
        = ((generatePythonTest recFoo2 "n2" regAAAA).2.generatedTests.drop
            regAAAA.generatedTests.length).map (fun t => t.testName))) :=
  ⟨⟨rfl, rfl, rfl, rfl⟩,
   C9_deterministic_naming recFoo1 recFoo2 dpFoo1 dpFoo2 "n1" "n2"
     regEmpty regAAAA rfl rfl rfl rfl⟩

set_option maxRecDepth 100000

/-- **C1, failing evaluation.** Export is not idempotent.  With the two
generated fragments for `alphaVar`/`betaVar` and an existing file whose
text is the first fragment's name, the first export overwrites the file
with the header and the `betaVar` fragment only; the second export then
no longer finds `variable_alphaVar_accessible` in the file, re-exports
it and drops the `betaVar` fragment, so the content after two runs
differs from the content after one. -/
theorem C1_export_not_idempotent :
    fragsAB.map (fun t => t.testName)
      = ["variable_alphaVar_accessible", "variable_betaVar_accessible"] ∧
    exportPlaywrightTests
        (exportPlaywrightTests "variable_alphaVar_accessible" fragsAB) fragsAB
      ≠ exportPlaywrightTests "variable_alphaVar_accessible" fragsAB := by
  decide

/-- **C2, failing evaluation.** Export does not append: with an existing
file containing hand-written text and one not-yet-exported fragment,
the written file contains the fragment but no longer contains the
pre-existing text (the source overwrites the file with only the header
and the newly selected fragments). -/
theorem C2_export_discards_existing :
    fragsAlpha.map (fun t => t.testName) = ["variable_alphaVar_accessible"] ∧
    jsIncludes
        (exportPlaywrightTests "// handwritten test marker\n" fragsAlpha)
        "// handwritten test marker" = false ∧
    jsIncludes
        (exportPlaywrightTests "// handwritten test marker\n" fragsAlpha)
        "variable_alphaVar_accessible" = true := by
  decide

end ErrorLearning
